import Mathlib

/-!
Shallow embedding of the server-action module of `next-dashboard`
(`src/app/dashboard/customers/page.tsx`, the `'use server'` file): the zod
schemas, the seven mutation handlers and the authentication adapter.

Modelling conventions:
* A JavaScript value extracted from a submission is a `JsVal`
  (`undef` = `undefined`, `nullv` = `null`, `str` = a string).
  `FormData.get(key)` yields `null` when the key is absent, never `undefined`.
* A form submission (`FormData`) is an association list of string pairs;
  lookup returns the first binding, `nullv` when the key is missing.
* Amounts coerced by `z.coerce.number()` are modelled as exact rationals
  parsed from decimal literals; see the comment on `jsNumber`.
* `sql`, `revalidatePath`, `redirect`, the `console.log` call and the
  invocation of `authenticate` are recorded as an explicit effect trace.
  The outcome of the single SQL statement is a parameter
  `db : Option String` (`none` = success, `some e` = the statement throws
  the error `e`, which the handler catches).
* `redirect(path)` aborts the handler by a non-local transfer; it is
  modelled as the result constructor `MutationResult.redirected`.
-/

set_option autoImplicit false

namespace NextDashboard

/-- A JavaScript value as it arrives at a zod schema field. -/
inductive JsVal where
  | undef
  | nullv
  | str (s : String)
deriving DecidableEq, Repr

/-- A form submission: ordered key/value pairs, first binding wins. -/
abbrev FormData := List (String × String)

/-- `formData.get(key)`: the first value bound to `key`, `null` when absent. -/
def fdGet : FormData → String → JsVal
  | [], _ => .nullv
  | (k, v) :: rest, key => if key = k then .str v else fdGet rest key

/-- Split a character list at every occurrence of `c` (models JS
`String.prototype.split` with a one-character separator). -/
def splitOnChar (c : Char) : List Char → List (List Char)
  | [] => [[]]
  | x :: xs =>
    match splitOnChar c xs, decide (x = c) with
    | r, true => [] :: r
    | [], false => [[x]]
    | h :: t, false => (x :: h) :: t

/-- Whitespace stripped by JS `Number()` coercion. -/
def isJsWs (c : Char) : Bool :=
  c = ' ' || c = '\t' || c = '\n' || c = '\r'

/-- Strip leading and trailing whitespace. -/
def trimWs (l : List Char) : List Char :=
  ((l.dropWhile isJsWs).reverse.dropWhile isJsWs).reverse

/-- Numeric value of a digit list (most significant first). -/
def digitsToNat (l : List Char) : Nat :=
  l.foldl (fun a c => 10 * a + (c.toNat - 48)) 0

/-- An unsigned decimal literal `ddd`, `ddd.ddd`, `.ddd` or `ddd.` as an
exact rational; `none` when the characters do not form such a literal. -/
def decimalToRat (l : List Char) : Option Rat :=
  match splitOnChar '.' l with
  | [ip] =>
    if ip.isEmpty then none
    else if ip.all Char.isDigit then some (digitsToNat ip) else none
  | [ip, fp] =>
    if ip.isEmpty && fp.isEmpty then none
    else if ip.all Char.isDigit && fp.all Char.isDigit then
      some ((digitsToNat ip : Rat) + (digitsToNat fp : Rat) / (10 ^ fp.length))
    else none
  | _ => none

/-- JS `Number(s)` on a string, as an exact rational: whitespace is trimmed,
the empty string is `0`, an optional sign precedes a decimal literal, and
anything else is NaN (`none`).  Exponent, hexadecimal, `Infinity` and other
literal forms, which no form in this application submits, are NaN here. -/
def jsNumber (s : String) : Option Rat :=
  let t := trimWs s.data
  if t.isEmpty then some 0
  else
    match t with
    | '-' :: rest => (decimalToRat rest).map Neg.neg
    | '+' :: rest => decimalToRat rest
    | l => decimalToRat l

/-- JS `Number(v)` on a schema input value: `undefined` is NaN, `null` is 0. -/
def jsToNumber : JsVal → Option Rat
  | .undef => none
  | .nullv => some 0
  | .str s => jsNumber s

/-- `new Date().toISOString().split('T')[0]` applied to the timestamp string
`now` produced by `toISOString()`: the part before the first `T`. -/
def isoDatePart (now : String) : String :=
  String.mk ((splitOnChar 'T' now.data).headD [])

/-- A character admitted in an atom of the local part of an email address. -/
def emailAtomChar (c : Char) : Bool :=
  c.isAlphanum || c = '_' || c = '+' || c = '-' || c = '\x27'

/-- A domain label: alphanumeric first character, then alphanumerics or
hyphens. -/
def emailLabelOk : List Char → Bool
  | [] => false
  | c :: cs => c.isAlphanum && cs.all (fun d => d.isAlphanum || d = '-')

/-- The email-syntax test of zod's `.email()` validator: one `@`; a local
part made of non-empty dot-separated atoms over `emailAtomChar`; a domain of
one or more labels followed by an alphabetic top-level label of length at
least two.  It agrees with zod on every address considered in this
development. -/
def emailOk (s : String) : Bool :=
  match splitOnChar '@' s.data with
  | [lp, dp] =>
    (!lp.isEmpty) &&
    (splitOnChar '.' lp).all (fun seg => !seg.isEmpty && seg.all emailAtomChar) &&
    (match (splitOnChar '.' dp).reverse with
     | tld :: rest =>
       (!rest.isEmpty) &&
       (decide (2 ≤ tld.length) && tld.all Char.isAlpha) &&
       rest.all emailLabelOk
     | [] => false)
  | _ => false

/-- Per-field zod issues: `z.string()` with default messages
(`undefined` is "Required", `null` is an invalid-type error). -/
def zString : JsVal → Except (List String) String
  | .undef => .error ["Required"]
  | .nullv => .error ["Expected string, received null"]
  | .str s => .ok s

/-- `z.string(\x7b invalid_type_error: 'Please select a customer.' \x7d)`
(source line 30): the custom message replaces the invalid-type default. -/
def zCustomerId : JsVal → Except (List String) String
  | .undef => .error ["Required"]
  | .nullv => .error ["Please select a customer."]
  | .str s => .ok s

/-- `z.coerce.number().gt(0, ...)` (source lines 33–35). -/
def zAmount (v : JsVal) : Except (List String) Rat :=
  match jsToNumber v with
  | none => .error ["Expected number, received nan"]
  | some q =>
    if 0 < q then .ok q
    else .error ["Please enter an amount greater than $0."]

/-- `z.enum(['pending', 'paid'], \x7b invalid_type_error: ... \x7d)`
(source lines 36–38). -/
def zStatus : JsVal → Except (List String) String
  | .undef => .error ["Required"]
  | .nullv => .error ["Please select an invoice status."]
  | .str s =>
    if s = "pending" || s = "paid" then .ok s
    else .error ["Invalid enum value. Expected \x27pending\x27 | \x27paid\x27, received \x27" ++ s ++ "\x27"]

/-- `z.string().min(4, \x7b message: 'Please enter your full name.' \x7d)`
(source lines 43–45). -/
def zCustomerName : JsVal → Except (List String) String
  | .undef => .error ["Required"]
  | .nullv => .error ["Expected string, received null"]
  | .str s => if 4 ≤ s.length then .ok s else .error ["Please enter your full name."]

/-- `z.string().email(\x7b message: 'Please enter a valid email address.' \x7d)`
(source lines 46–48). -/
def zCustomerEmail : JsVal → Except (List String) String
  | .undef => .error ["Required"]
  | .nullv => .error ["Expected string, received null"]
  | .str s => if emailOk s then .ok s else .error ["Please enter a valid email address."]

/-- `z.string().optional()` (source line 49): `undefined` is accepted as the
absent value, `null` is not. -/
def zImage : JsVal → Except (List String) (Option String)
  | .undef => .ok none
  | .nullv => .error ["Expected string, received null"]
  | .str s => .ok (some s)

/-- `z.string().email()` of `UserSchema` (source line 24), default message. -/
def zUserEmail : JsVal → Except (List String) String
  | .undef => .error ["Required"]
  | .nullv => .error ["Expected string, received null"]
  | .str s => if emailOk s then .ok s else .error ["Invalid email"]

/-- `z.string().min(8)` of `UserSchema` (source line 25), default message. -/
def zPassword : JsVal → Except (List String) String
  | .undef => .error ["Required"]
  | .nullv => .error ["Expected string, received null"]
  | .str s =>
    if 8 ≤ s.length then .ok s
    else .error ["String must contain at least 8 character(s)"]

/-- `flatten().fieldErrors` modelled as an ordered association list from
field name to its messages, in schema field order. -/
abbrev FieldErrors := List (String × List String)

/-- The contribution of one field result to `flatten().fieldErrors`. -/
def fieldErr {α : Type} (key : String) : Except (List String) α → FieldErrors
  | .ok _ => []
  | .error msgs => [(key, msgs)]

/-- The data of a validated invoice submission
(`InvoiceFormSchema.omit(\x7b id: true, date: true \x7d)`). -/
structure InvoiceData where
  customerId : String
  amount : Rat
  status : String
deriving DecidableEq, Repr

/-- The data of a validated customer submission (`id` omitted). -/
structure CustomerData where
  name : String
  email : String
  image : Option String
deriving DecidableEq, Repr

/-- The data of a validated user-creation submission
(`UserSchema.omit(\x7b id: true, created_at: true \x7d)`). -/
structure UserData where
  name : String
  email : String
  password : String
deriving DecidableEq, Repr

/-- `CreateInvoice.safeParse` and `UpdateInvoice.safeParse`: both constants
are `InvoiceFormSchema.omit(\x7b id: true, date: true \x7d)` (source lines
53 and 55), so one function serves both call sites. -/
def invoiceFormSafeParse (customerId amount status : JsVal) :
    Except FieldErrors InvoiceData :=
  match zCustomerId customerId, zAmount amount, zStatus status with
  | .ok c, .ok a, .ok s => .ok ⟨c, a, s⟩
  | rc, ra, rs =>
    .error (fieldErr "customerId" rc ++ fieldErr "amount" ra ++ fieldErr "status" rs)

/-- `CreateCustomer.safeParse` (`CustomerFormSchema.omit(\x7b id: true \x7d)`,
source line 52). -/
def createCustomerSafeParse (name email image : JsVal) :
    Except FieldErrors CustomerData :=
  match zCustomerName name, zCustomerEmail email, zImage image with
  | .ok n, .ok e, .ok img => .ok ⟨n, e, img⟩
  | rn, re, rim =>
    .error (fieldErr "name" rn ++ fieldErr "email" re ++ fieldErr "image" rim)

/-- `CustomerFormSchema.safeParse` with the full schema, `id` included
(source lines 41–50); used by `updateCustomer`, whose parse input object
carries no `id` key, so that field's value is `undefined`. -/
def customerFormSafeParse (id name email image : JsVal) :
    Except FieldErrors (String × CustomerData) :=
  match zString id, zCustomerName name, zCustomerEmail email, zImage image with
  | .ok i, .ok n, .ok e, .ok img => .ok (i, ⟨n, e, img⟩)
  | ri, rn, re, rim =>
    .error (fieldErr "id" ri ++ fieldErr "name" rn ++ fieldErr "email" re ++
      fieldErr "image" rim)

/-- `CreateUser.safeParse` (`UserSchema.omit(\x7b id: true, created_at: true \x7d)`,
source line 54). -/
def createUserSafeParse (name email password : JsVal) :
    Except FieldErrors UserData :=
  match zString name, zUserEmail email, zPassword password with
  | .ok n, .ok e, .ok p => .ok ⟨n, e, p⟩
  | rn, re, rp =>
    .error (fieldErr "name" rn ++ fieldErr "email" re ++ fieldErr "password" rp)

/-- The `errors` field of the exported `InvoiceState` type (source lines 66–73). -/
structure InvoiceErrorMap where
  customerId : Option (List String)
  amount : Option (List String)
  status : Option (List String)
deriving DecidableEq, Repr

/-- The exported `InvoiceState` type: both fields optional, `message`
nullable. -/
structure InvoiceState where
  errors : Option InvoiceErrorMap
  message : Option (Option String)
deriving DecidableEq, Repr

/-- The `errors` field of the exported `CustomerState` type (source lines 57–64). -/
structure CustomerErrorMap where
  name : Option (List String)
  email : Option (List String)
  image : Option (List String)
deriving DecidableEq, Repr

/-- The exported `CustomerState` type. -/
structure CustomerState where
  errors : Option CustomerErrorMap
  message : Option (Option String)
deriving DecidableEq, Repr

/-- The `errors` field of the exported `UserState` type (source lines 75–82). -/
structure UserErrorMap where
  name : Option (List String)
  email : Option (List String)
  password : Option (List String)
deriving DecidableEq, Repr

/-- The exported `UserState` type. -/
structure UserState where
  errors : Option UserErrorMap
  message : Option (Option String)
deriving DecidableEq, Repr

/-- One parameterized SQL statement with its bound values, as issued by a
handler. -/
inductive SqlStatement where
  | insertInvoice (customerId : String) (amountInCents : Rat) (status date : String)
  | updateInvoice (customerId : String) (amountInCents : Rat) (status id : String)
  | deleteInvoice (id : String)
  | insertCustomer (name email : String) (image : Option String)
  | updateCustomer (name email : String) (image : Option String) (id : String)
  | deleteCustomer (id : String)
  | insertUser (email password name : String)
deriving DecidableEq, Repr

/-- An observable action of a handler, in program order.  `authCall` records
an invocation of `authenticate` with its arguments and whether the handler
awaited the returned promise. -/
inductive Effect where
  | persist (stmt : SqlStatement)
  | revalidate (path : String)
  | redirectTo (path : String)
  | authCall (prevState : Option String) (formData : FormData) (awaited : Bool)
  | log (a b : String)
deriving DecidableEq, Repr

/-- A handler's returned value.  `validationError` is the
`\x7b errors, message \x7d` object, `messageOnly` the `\x7b message \x7d`
object (no `errors` key exists in it), and `redirected` the non-local
transfer performed by `redirect(path)`. -/
inductive MutationResult where
  | validationError (errors : FieldErrors) (message : String)
  | messageOnly (message : String)
  | redirected (path : String)
deriving DecidableEq, Repr

/-- Lines 106–122 of `createInvoice`: the post-validation stage.  `now` is
the `toISOString()` timestamp of the creation instant. -/
def createInvoicePersist (now : String) (db : Option String) (d : InvoiceData) :
    MutationResult × List Effect :=
  let amountInCents := d.amount * 100
  let date := isoDatePart now
  let stmt := SqlStatement.insertInvoice d.customerId amountInCents d.status date
  match db with
  | some _ => (.messageOnly "Database Error: Failed to Create Invoice.", [.persist stmt])
  | none =>
    (.redirected "/dashboard/invoices",
     [.persist stmt, .revalidate "/dashboard/invoices", .redirectTo "/dashboard/invoices"])

/-- `createInvoice` (source lines 89–123). -/
def createInvoice (now : String) (db : Option String) (prevState : InvoiceState)
    (formData : FormData) : MutationResult × List Effect :=
  match invoiceFormSafeParse (fdGet formData "customerId") (fdGet formData "amount")
      (fdGet formData "status") with
  | .error e => (.validationError e "Missing Fields. Failed to Create Invoice.", [])
  | .ok d => createInvoicePersist now db d

/-- Lines 143–157 of `updateInvoice`: the post-validation stage. -/
def updateInvoicePersist (id : String) (db : Option String) (d : InvoiceData) :
    MutationResult × List Effect :=
  let amountInCents := d.amount * 100
  let stmt := SqlStatement.updateInvoice d.customerId amountInCents d.status id
  match db with
  | some _ => (.messageOnly "Database Error: Failed to Update Invoice.", [.persist stmt])
  | none =>
    (.redirected "/dashboard/invoices",
     [.persist stmt, .revalidate "/dashboard/invoices", .redirectTo "/dashboard/invoices"])

/-- `updateInvoice` (source lines 125–158). -/
def updateInvoice (id : String) (db : Option String) (prevState : InvoiceState)
    (formData : FormData) : MutationResult × List Effect :=
  match invoiceFormSafeParse (fdGet formData "customerId") (fdGet formData "amount")
      (fdGet formData "status") with
  | .error e => (.validationError e "Missing Fields. Failed to Update Invoice.", [])
  | .ok d => updateInvoicePersist id db d

/-- `deleteInvoice` (source lines 160–168): `revalidatePath` sits inside the
`try` after the statement, so it runs only when the statement succeeds. -/
def deleteInvoice (db : Option String) (id : String) : MutationResult × List Effect :=
  match db with
  | some _ =>
    (.messageOnly "Database Error: Failed to Delete Invoice.",
     [.persist (.deleteInvoice id)])
  | none =>
    (.messageOnly "Deleted Invoice.",
     [.persist (.deleteInvoice id), .revalidate "/dashboard/invoices"])

/-- Lines 187–202 of `createCustomer`: the post-validation stage. -/
def createCustomerPersist (db : Option String) (c : CustomerData) :
    MutationResult × List Effect :=
  let stmt := SqlStatement.insertCustomer c.name c.email c.image
  match db with
  | some _ => (.messageOnly "Database Error: Failed to Create Customer.", [.persist stmt])
  | none =>
    (.redirected "/dashboard/customers",
     [.persist stmt, .revalidate "/dashboard/customers", .redirectTo "/dashboard/customers"])

/-- `createCustomer` (source lines 170–202). -/
def createCustomer (db : Option String) (prevState : CustomerState)
    (formData : FormData) : MutationResult × List Effect :=
  match createCustomerSafeParse (fdGet formData "name") (fdGet formData "email")
      (fdGet formData "image") with
  | .error e => (.validationError e "Missing Fields. Failed to Create Customer.", [])
  | .ok c => createCustomerPersist db c

/-- Lines 222–234 of `updateCustomer`: the post-validation stage.  The
`WHERE` id is the path-supplied parameter; the validated `id` field is not
destructured (source line 222). -/
def updateCustomerPersist (id : String) (db : Option String) (c : CustomerData) :
    MutationResult × List Effect :=
  let stmt := SqlStatement.updateCustomer c.name c.email c.image id
  match db with
  | some _ => (.messageOnly "Database Error: Failed to Update Customer.", [.persist stmt])
  | none =>
    (.redirected "/dashboard/customers",
     [.persist stmt, .revalidate "/dashboard/customers", .redirectTo "/dashboard/customers"])

/-- `updateCustomer` (source lines 204–235).  It validates with the full
`CustomerFormSchema` — not an omit-derived schema — and its parse input
object has no `id` key (source lines 209–213), so the schema's `id` field
receives `undefined`. -/
def updateCustomer (id : String) (db : Option String) (prevState : CustomerState)
    (formData : FormData) : MutationResult × List Effect :=
  match customerFormSafeParse .undef (fdGet formData "name") (fdGet formData "email")
      (fdGet formData "image") with
  | .error e => (.validationError e "Missing Fields. Failed to Update Customer.", [])
  | .ok ic => updateCustomerPersist id db ic.2

/-- `deleteCustomer` (source lines 237–245). -/
def deleteCustomer (db : Option String) (id : String) : MutationResult × List Effect :=
  match db with
  | some _ =>
    (.messageOnly "Database Error: Failed to Delete Customer.",
     [.persist (.deleteCustomer id)])
  | none =>
    (.messageOnly "Deleted Customer.",
     [.persist (.deleteCustomer id), .revalidate "/dashboard/customers"])

/-- What the provider call `signIn('credentials', formData)` does for a given
submission: succeed, throw an `AuthError` of some `type`, or throw a
non-`AuthError` value. -/
inductive SignInResult where
  | ok
  | authError (kind : String)
  | thrown (err : String)
deriving DecidableEq, Repr

/-- `authenticate` (source lines 285–302).  `.ok` is a normal return (`none`
models returning `undefined`); `.error` models re-raising a non-`AuthError`
value unchanged. -/
def authenticate (signInResult : SignInResult) (prevState : Option String)
    (formData : FormData) : Except String (Option String) :=
  match signInResult with
  | .ok => .ok none
  | .authError kind =>
    if kind = "CredentialsSignin" then .ok (some "Invalid credentials.")
    else .ok (some "Something went wrong.")
  | .thrown err => .error err

/-- Lines 265–283 of `createUser`: the post-validation stage.  `hash` models
`bcrypt.hash(·, 10)`.  The `console.log` of line 268 precedes the `try`.
`authenticate(undefined, formData)` on line 280 is invoked WITHOUT `await`:
its promise is discarded, so the recorded `authCall` effect carries
`awaited := false` and the handler's continuation does not depend on the
call's outcome. -/
def createUserPersist (hash : String → String) (db : Option String)
    (formData : FormData) (d : UserData) : MutationResult × List Effect :=
  let hashedPassword := hash d.password
  let stmt := SqlStatement.insertUser d.email hashedPassword d.name
  match db with
  | some _ =>
    (.messageOnly "Database Error: Failed to Create User.",
     [.log d.email hashedPassword, .persist stmt])
  | none =>
    (.redirected "/dashboard",
     [.log d.email hashedPassword, .persist stmt,
      .authCall none formData false,
      .revalidate "/dashboard", .redirectTo "/dashboard"])

/-- `createUser` (source lines 248–283).  `signInOutcome` is what the
un-awaited `authenticate` call's inner `signIn` would do; the source never
awaits or reads that promise, so the parameter is unused. -/
def createUser (hash : String → String) (db : Option String)
    (signInOutcome : SignInResult) (prevState : UserState)
    (formData : FormData) : MutationResult × List Effect :=
  match createUserSafeParse (fdGet formData "name") (fdGet formData "email")
      (fdGet formData "password") with
  | .error e => (.validationError e "Missing Fields. Failed to Create User.", [])
  | .ok d => createUserPersist hash db formData d

/-- Prepending a binding for a different key leaves a lookup unchanged. -/
theorem fdGet_cons_ne (key k v : String) (fd : FormData) (h : key ≠ k) :
    fdGet ((k, v) :: fd) key = fdGet fd key := by
  simp [fdGet, h]

/-- C1: the claim says every mutation handler validates with a schema from
which `id` (and, for invoices, `date`) has been stripped, so in particular an
update-customer submission is never rejected for lacking `id`.  The code of
`updateCustomer` validates with the full `CustomerFormSchema`, whose `id`
field is required and receives `undefined`: a fully valid customer submission
is rejected with the error map `\x7b id: ["Required"] \x7d` and no effect is
performed. -/
theorem c1_updateCustomer_schema_requires_id :
    updateCustomer "c1" none ⟨none, none⟩
      [("name", "Jane Doe"), ("email", "jane@x.com"), ("image", "https://x/p.png")] =
    (.validationError [("id", ["Required"])]
      "Missing Fields. Failed to Update Customer.", []) := by
  decide

/-- C2: the claim says a customer-creation submission with only `name` and
`email` (so `formData.get('image')` is `null`) passes validation and leads to
one INSERT, an invalidation of `/dashboard/customers` and a redirect there.
The code's `z.string().optional()` accepts `undefined` but not `null`, so the
submission is rejected at validation with an `image` error and no effect is
performed. -/
theorem c2_createCustomer_rejects_absent_image :
    createCustomer none ⟨none, none⟩ [("name", "Jane Doe"), ("email", "jane@x.com")] =
    (.validationError [("image", ["Expected string, received null"])]
      "Missing Fields. Failed to Create Customer.", []) := by
  decide

/-- C4: whenever validation fails, each create/update handler returns the
per-field error map together with the message
"Missing Fields. Failed to <Create|Update> <Entity>." for its entity and
performs no persistence, cache-invalidation or redirect effect; and the
concrete scenario `\x7b customerId: "c1", amount: "0", status: "pending" \x7d`
submitted to invoice creation yields exactly the amount error with that
message. -/
theorem c4_validation_failure_returns_errors_and_no_effects
    (now id : String) (hash : String → String) (db : Option String)
    (a : SignInResult) (pI : InvoiceState) (pC : CustomerState) (pU : UserState)
    (fd : FormData) :
    (∀ e, invoiceFormSafeParse (fdGet fd "customerId") (fdGet fd "amount")
        (fdGet fd "status") = .error e →
      createInvoice now db pI fd =
        (.validationError e "Missing Fields. Failed to Create Invoice.", [])) ∧
    (∀ e, invoiceFormSafeParse (fdGet fd "customerId") (fdGet fd "amount")
        (fdGet fd "status") = .error e →
      updateInvoice id db pI fd =
        (.validationError e "Missing Fields. Failed to Update Invoice.", [])) ∧
    (∀ e, createCustomerSafeParse (fdGet fd "name") (fdGet fd "email")
        (fdGet fd "image") = .error e →
      createCustomer db pC fd =
        (.validationError e "Missing Fields. Failed to Create Customer.", [])) ∧
    (∀ e, customerFormSafeParse .undef (fdGet fd "name") (fdGet fd "email")
        (fdGet fd "image") = .error e →
      updateCustomer id db pC fd =
        (.validationError e "Missing Fields. Failed to Update Customer.", [])) ∧
    (∀ e, createUserSafeParse (fdGet fd "name") (fdGet fd "email")
        (fdGet fd "password") = .error e →
      createUser hash db a pU fd =
        (.validationError e "Missing Fields. Failed to Create User.", [])) ∧
    createInvoice now db pI [("customerId", "c1"), ("amount", "0"), ("status", "pending")] =
      (.validationError [("amount", ["Please enter an amount greater than $0."])]
        "Missing Fields. Failed to Create Invoice.", []) := by
  refine ⟨fun e h => ?_, fun e h => ?_, fun e h => ?_, fun e h => ?_, fun e h => ?_, rfl⟩
  · simp [createInvoice, h]
  · simp [updateInvoice, h]
  · simp [createCustomer, h]
  · simp [updateCustomer, h]
  · simp [createUser, h]

/-- Witness for C4: each conjunct of the theorem applied at a concrete
failing submission. -/
theorem c4_validation_failure_witness :
    createInvoice "2026-10-11T00:00:00.000Z" none ⟨none, none⟩
        [("customerId", "c1"), ("amount", "0"), ("status", "pending")] =
      (.validationError [("amount", ["Please enter an amount greater than $0."])]
        "Missing Fields. Failed to Create Invoice.", []) ∧
    updateInvoice "i1" none ⟨none, none⟩
        [("customerId", "c1"), ("amount", "0"), ("status", "pending")] =
      (.validationError [("amount", ["Please enter an amount greater than $0."])]
        "Missing Fields. Failed to Update Invoice.", []) ∧
    createCustomer none ⟨none, none⟩ [("name", "Al")] =
      (.validationError [("name", ["Please enter your full name."]),
          ("email", ["Expected string, received null"]),
          ("image", ["Expected string, received null"])]
        "Missing Fields. Failed to Create Customer.", []) ∧
    updateCustomer "c7" none ⟨none, none⟩ [("name", "Al")] =
      (.validationError [("id", ["Required"]),
          ("name", ["Please enter your full name."]),
          ("email", ["Expected string, received null"]),
          ("image", ["Expected string, received null"])]
        "Missing Fields. Failed to Update Customer.", []) ∧
    createUser (fun s => s) none .ok ⟨none, none⟩ [("password", "pw")] =
      (.validationError [("name", ["Expected string, received null"]),
          ("email", ["Expected string, received null"]),
          ("password", ["String must contain at least 8 character(s)"])]
        "Missing Fields. Failed to Create User.", []) := by
  refine ⟨?_, ?_, ?_, ?_, ?_⟩
  · exact (c4_validation_failure_returns_errors_and_no_effects
      "2026-10-11T00:00:00.000Z" "i1" (fun s => s) none .ok ⟨none, none⟩ ⟨none, none⟩
      ⟨none, none⟩ [("customerId", "c1"), ("amount", "0"), ("status", "pending")]).1
      _ rfl
  · exact (c4_validation_failure_returns_errors_and_no_effects
      "2026-10-11T00:00:00.000Z" "i1" (fun s => s) none .ok ⟨none, none⟩ ⟨none, none⟩
      ⟨none, none⟩ [("customerId", "c1"), ("amount", "0"), ("status", "pending")]).2.1
      _ rfl
  · exact (c4_validation_failure_returns_errors_and_no_effects
      "2026-10-11T00:00:00.000Z" "i1" (fun s => s) none .ok ⟨none, none⟩ ⟨none, none⟩
      ⟨none, none⟩ [("name", "Al")]).2.2.1 _ rfl
  · exact (c4_validation_failure_returns_errors_and_no_effects
      "2026-10-11T00:00:00.000Z" "c7" (fun s => s) none .ok ⟨none, none⟩ ⟨none, none⟩
      ⟨none, none⟩ [("name", "Al")]).2.2.2.1 _ rfl
  · exact (c4_validation_failure_returns_errors_and_no_effects
      "2026-10-11T00:00:00.000Z" "i1" (fun s => s) none .ok ⟨none, none⟩ ⟨none, none⟩
      ⟨none, none⟩ [("password", "pw")]).2.2.2.2.1 _ rfl

/-- C5: for every handler, a storage-layer error is caught and the handler
returns exactly the `\x7b message \x7d` object
"Database Error: Failed to <Op> <Entity>." for its entity and operation — the
result carries no `errors` field (the `messageOnly` constructor has none) and
does not depend on the thrown error `e`, which is never propagated; the
delete handlers always return a `\x7b message \x7d` object whatever the
statement does, so a delete of a nonexistent id never escapes as an uncaught
failure. -/
theorem c5_db_error_uniform_message (now id delId e : String)
    (hash : String → String) (fd : FormData)
    (d : InvoiceData) (c : CustomerData) (u : UserData) :
    createInvoicePersist now (some e) d =
      (.messageOnly "Database Error: Failed to Create Invoice.",
       [.persist (.insertInvoice d.customerId (d.amount * 100) d.status (isoDatePart now))]) ∧
    updateInvoicePersist id (some e) d =
      (.messageOnly "Database Error: Failed to Update Invoice.",
       [.persist (.updateInvoice d.customerId (d.amount * 100) d.status id)]) ∧
    createCustomerPersist (some e) c =
      (.messageOnly "Database Error: Failed to Create Customer.",
       [.persist (.insertCustomer c.name c.email c.image)]) ∧
    updateCustomerPersist id (some e) c =
      (.messageOnly "Database Error: Failed to Update Customer.",
       [.persist (.updateCustomer c.name c.email c.image id)]) ∧
    createUserPersist hash (some e) fd u =
      (.messageOnly "Database Error: Failed to Create User.",
       [.log u.email (hash u.password),
        .persist (.insertUser u.email (hash u.password) u.name)]) ∧
    deleteInvoice (some e) delId =
      (.messageOnly "Database Error: Failed to Delete Invoice.",
       [.persist (.deleteInvoice delId)]) ∧
    deleteCustomer (some e) delId =
      (.messageOnly "Database Error: Failed to Delete Customer.",
       [.persist (.deleteCustomer delId)]) ∧
    (∀ db, ∃ m, (deleteInvoice db delId).1 = .messageOnly m) ∧
    (∀ db, ∃ m, (deleteCustomer db delId).1 = .messageOnly m) := by
  refine ⟨rfl, rfl, rfl, rfl, rfl, rfl, rfl, fun db => ?_, fun db => ?_⟩
  · cases db with
    | none => exact ⟨"Deleted Invoice.", rfl⟩
    | some err => exact ⟨"Database Error: Failed to Delete Invoice.", rfl⟩
  · cases db with
    | none => exact ⟨"Deleted Customer.", rfl⟩
    | some err => exact ⟨"Database Error: Failed to Delete Customer.", rfl⟩

/-- C6: `authenticate` maps an `AuthError` of type `CredentialsSignin` to
the string "Invalid credentials.", an `AuthError` of any other type to
"Something went wrong.", and re-raises any non-`AuthError` value unchanged. -/
theorem c6_authenticate_error_mapping (p : Option String) (fd : FormData)
    (k e : String) :
    authenticate (.authError "CredentialsSignin") p fd = .ok (some "Invalid credentials.") ∧
    (k ≠ "CredentialsSignin" →
      authenticate (.authError k) p fd = .ok (some "Something went wrong.")) ∧
    authenticate (.thrown e) p fd = .error e := by
  refine ⟨rfl, fun h => ?_, rfl⟩
  simp [authenticate, h]

/-- Witness for C6: the non-`CredentialsSignin` branch at a concrete kind. -/
theorem c6_authenticate_error_mapping_witness :
    authenticate (.authError "CallbackRouteError") none [] =
      .ok (some "Something went wrong.") :=
  (c6_authenticate_error_mapping none [] "CallbackRouteError" "boom").2.1 (by decide)

/-- C7: every invoice INSERT binds as its date exactly the part of the
creation-time `toISOString()` timestamp before the `T` (the current ISO
calendar date), and the handler never reads a `date` key of the submission:
adding or overriding one changes nothing. -/
theorem c7_invoice_date_from_clock (now : String) (db : Option String)
    (pI : InvoiceState) (fd : FormData) :
    (∀ c a s dt, Effect.persist (.insertInvoice c a s dt) ∈ (createInvoice now db pI fd).2 →
      dt = isoDatePart now) ∧
    (∀ v, createInvoice now db pI (("date", v) :: fd) = createInvoice now db pI fd) := by
  constructor
  · intro c a s dt h
    simp only [createInvoice] at h
    cases hp : invoiceFormSafeParse (fdGet fd "customerId") (fdGet fd "amount")
        (fdGet fd "status") with
    | error err => rw [hp] at h; simp at h
    | ok d =>
      rw [hp] at h
      simp only [createInvoicePersist] at h
      cases db with
      | none => simp at h; exact h.2.2.2
      | some err => simp at h; exact h.2.2.2
  · intro v
    have h1 := fdGet_cons_ne "customerId" "date" v fd (by decide)
    have h2 := fdGet_cons_ne "amount" "date" v fd (by decide)
    have h3 := fdGet_cons_ne "status" "date" v fd (by decide)
    simp only [createInvoice, h1, h2, h3]

/-- Witness for C7: the date bound at a concrete valid creation equals the
date part of the clock value. -/
theorem c7_invoice_date_from_clock_witness :
    ("2026-10-11" : String) = isoDatePart "2026-10-11T00:00:00.000Z" :=
  (c7_invoice_date_from_clock "2026-10-11T00:00:00.000Z" none ⟨none, none⟩
    [("customerId", "c1"), ("amount", "10"), ("status", "paid")]).1
    "c1" ((10 : Rat) * 100) "paid" "2026-10-11" (by
      have hp : invoiceFormSafeParse
          (fdGet [("customerId", "c1"), ("amount", "10"), ("status", "paid")] "customerId")
          (fdGet [("customerId", "c1"), ("amount", "10"), ("status", "paid")] "amount")
          (fdGet [("customerId", "c1"), ("amount", "10"), ("status", "paid")] "status") =
          .ok ⟨"c1", (10 : Rat), "paid"⟩ := rfl
      have hd : isoDatePart "2026-10-11T00:00:00.000Z" = "2026-10-11" := rfl
      simp only [createInvoice, hp, createInvoicePersist, hd]
      exact List.mem_cons_self _ _)

/-- C8 counterexample: the claim says `createUser` awaits the `authenticate`
call to completion before invalidating and redirecting.  At a concrete valid
user submission the recorded `authenticate` invocation carries
`awaited = false` — an awaited invocation does not occur in the trace — and
the invalidation and redirect follow in the same synchronous continuation. -/
theorem c8_authenticate_awaited_is_false :
    Effect.authCall none
        [("name", "User"), ("email", "u@x.com"), ("password", "password123")] true ∉
      (createUser (fun s => s) none .ok ⟨none, none⟩
        [("name", "User"), ("email", "u@x.com"), ("password", "password123")]).2 ∧
    (createUser (fun s => s) none .ok ⟨none, none⟩
        [("name", "User"), ("email", "u@x.com"), ("password", "password123")]).2 =
      [.log "u@x.com" "password123",
       .persist (.insertUser "u@x.com" "password123" "User"),
       .authCall none
         [("name", "User"), ("email", "u@x.com"), ("password", "password123")] false,
       .revalidate "/dashboard", .redirectTo "/dashboard"] := by
  have h : (createUser (fun s => s) none .ok ⟨none, none⟩
      [("name", "User"), ("email", "u@x.com"), ("password", "password123")]).2 =
      [.log "u@x.com" "password123",
       .persist (.insertUser "u@x.com" "password123" "User"),
       .authCall none
         [("name", "User"), ("email", "u@x.com"), ("password", "password123")] false,
       .revalidate "/dashboard", .redirectTo "/dashboard"] := rfl
  refine ⟨?_, h⟩
  rw [h]
  intro hmem
  simp at hmem

/-- C8 amended: after a successful INSERT, `createUser` invokes
`authenticate` with the same submission data, but without awaiting it (the
promise is discarded); the handler then invalidates `/dashboard` and
redirects there in the same continuation. -/
theorem c8_amended_fire_and_forget (hash : String → String) (a : SignInResult)
    (pU : UserState) (fd : FormData) (d : UserData)
    (h : createUserSafeParse (fdGet fd "name") (fdGet fd "email")
      (fdGet fd "password") = .ok d) :
    createUser hash none a pU fd =
      (.redirected "/dashboard",
       [.log d.email (hash d.password),
        .persist (.insertUser d.email (hash d.password) d.name),
        .authCall none fd false,
        .revalidate "/dashboard", .redirectTo "/dashboard"]) := by
  simp [createUser, h, createUserPersist]

/-- Witness for C8 amended: the full trace at a concrete valid submission. -/
theorem c8_amended_fire_and_forget_witness :
    createUser (fun s => String.append s "#h") none .ok ⟨none, none⟩
        [("name", "User"), ("email", "u@x.com"), ("password", "password123")] =
      (.redirected "/dashboard",
       [.log "u@x.com" "password123#h",
        .persist (.insertUser "u@x.com" "password123#h" "User"),
        .authCall none
          [("name", "User"), ("email", "u@x.com"), ("password", "password123")] false,
        .revalidate "/dashboard", .redirectTo "/dashboard"]) :=
  c8_amended_fire_and_forget (fun s => String.append s "#h") .ok ⟨none, none⟩
    [("name", "User"), ("email", "u@x.com"), ("password", "password123")]
    ⟨"User", "u@x.com", "password123"⟩ rfl

/-- C9: no handler reads its `prevState` argument: two calls differing only
in `prevState` return the same value and record the same effect trace. -/
theorem c9_prevState_never_read (now id : String) (hash : String → String)
    (db : Option String) (a r : SignInResult) (s1 s2 : Option String)
    (pI1 pI2 : InvoiceState) (pC1 pC2 : CustomerState) (pU1 pU2 : UserState)
    (fd : FormData) :
    createInvoice now db pI1 fd = createInvoice now db pI2 fd ∧
    updateInvoice id db pI1 fd = updateInvoice id db pI2 fd ∧
    createCustomer db pC1 fd = createCustomer db pC2 fd ∧
    updateCustomer id db pC1 fd = updateCustomer id db pC2 fd ∧
    createUser hash db a pU1 fd = createUser hash db a pU2 fd ∧
    authenticate r s1 fd = authenticate r s2 fd :=
  ⟨rfl, rfl, rfl, rfl, rfl, rfl⟩

/-- C10: once the INSERT succeeds, `createUser` redirects to `/dashboard`
and invalidates it whatever the un-awaited `authenticate` call's provider
would do: the whole result is independent of that outcome. -/
theorem c10_createUser_independent_of_auth_outcome (hash : String → String)
    (a1 a2 : SignInResult) (pU : UserState) (fd : FormData) (d : UserData)
    (h : createUserSafeParse (fdGet fd "name") (fdGet fd "email")
      (fdGet fd "password") = .ok d) :
    createUser hash none a1 pU fd = createUser hash none a2 pU fd ∧
    (createUser hash none a1 pU fd).1 = .redirected "/dashboard" ∧
    Effect.revalidate "/dashboard" ∈ (createUser hash none a1 pU fd).2 ∧
    Effect.redirectTo "/dashboard" ∈ (createUser hash none a1 pU fd).2 := by
  refine ⟨rfl, ?_, ?_, ?_⟩ <;> simp [createUser, h, createUserPersist]

/-- Witness for C10: the redirect at a concrete valid submission, with the
two compared auth outcomes instantiated to distinct values. -/
theorem c10_createUser_independent_of_auth_outcome_witness :
    (createUser (fun s => s) none (.authError "CredentialsSignin") ⟨none, none⟩
      [("name", "User"), ("email", "u@x.com"), ("password", "password123")]).1 =
      .redirected "/dashboard" :=
  (c10_createUser_independent_of_auth_outcome (fun s => s)
    (.authError "CredentialsSignin") .ok ⟨none, none⟩
    [("name", "User"), ("email", "u@x.com"), ("password", "password123")]
    ⟨"User", "u@x.com", "password123"⟩ rfl).2.1

end NextDashboard
